import Mathlib

/-!
# A verification development for a minimal static-file HTTP server

This file gives a shallow embedding, in Lean 4, of the core logic of
`server.py`: the request parser (`parse_request`), the path resolver
(`get_file`), the response builder (`respond`), the per-connection handler
loop (`handler_cycle` / `handler_loop`), the activity counter
(`inc_active` / `dec_active`) and the adaptive keep-alive timeout
(`keepalive_timeout`).  Raw socket bytes are modelled as `String` / `List
Char`; the filesystem is modelled as an oracle structure `FS`; absolute
filesystem paths are modelled as lists of path components (the components
after the leading `/`).  Theorems at the end settle the specification
claims against these definitions.
-/

namespace Server

/-! ## Python-value helpers -/

/-- Python truthiness of an optional string: `None` and `""` are falsy. -/
def truthy : Option String → Bool
  | none => false
  | some s => s != ""

/-- Python `a or b` for an optional string `a` and a default `b`
(used for `mimetypes.guess_type(file)[0] or "application/octet-stream"`). -/
def pyOr (a : Option String) (b : String) : String :=
  match a with
  | none => b
  | some s => if s = "" then b else s

/-! ## Character-list utilities

The Python code manipulates `bytes`/`str` values; we model them as
`List Char` (with `String` at the API boundaries) and give structurally
recursive versions of the string operations the source uses, so that every
definition evaluates inside the kernel. -/

/-- Python `"\r\n\r\n" in request`: does the header terminator occur in the buffer? -/
def hasHdrEnd : List Char → Bool
  | '\r' :: '\n' :: '\r' :: '\n' :: _ => true
  | _ :: rest => hasHdrEnd rest
  | [] => false

/-- Python `s.split("\r\n")`: split on the two-character sequence CR LF,
leftmost-first, keeping empty pieces. -/
def splitCRLF : List Char → List (List Char)
  | '\r' :: '\n' :: rest => [] :: splitCRLF rest
  | c :: rest =>
    match splitCRLF rest with
    | [] => [[c]]
    | l :: ls => (c :: l) :: ls
  | [] => [[]]

/-- Python `s.split()` (no argument): tokenize on whitespace runs, dropping
empty tokens.  `acc` is the current token being built, reversed. -/
def tokWs (acc : List Char) : List Char → List (List Char)
  | [] => if acc = [] then [] else [acc.reverse]
  | c :: rest =>
    if c.isWhitespace then
      if acc = [] then tokWs [] rest else acc.reverse :: tokWs [] rest
    else tokWs (c :: acc) rest

/-- Python `s.strip()`: remove leading and trailing whitespace. -/
def stripWs (l : List Char) : List Char :=
  ((l.dropWhile Char.isWhitespace).reverse.dropWhile Char.isWhitespace).reverse

/-- Python `s.partition(":")`: split at the first colon; `none` when the
separator does not occur (the source then skips the header line). -/
def partitionColon : List Char → Option (List Char × List Char)
  | [] => none
  | ':' :: rest => some ([], rest)
  | c :: rest =>
    match partitionColon rest with
    | none => none
    | some (a, b) => some (c :: a, b)

/-- Hexadecimal digit value, if any. -/
def hexVal (c : Char) : Option Nat :=
  if '0' ≤ c ∧ c ≤ '9' then some (c.toNat - '0'.toNat)
  else if 'a' ≤ c ∧ c ≤ 'f' then some (c.toNat - 'a'.toNat + 10)
  else if 'A' ≤ c ∧ c ≤ 'F' then some (c.toNat - 'A'.toNat + 10)
  else none

/-- Python `urllib.parse.unquote`: percent-decoding.  Invalid escapes are kept
verbatim, as in Python.  (Multi-byte UTF-8 escape sequences are modelled
byte-by-byte; no claim exercises them.) -/
def decodePercent : List Char → List Char
  | '%' :: a :: b :: rest =>
    match hexVal a, hexVal b with
    | some x, some y => Char.ofNat (16 * x + y) :: decodePercent rest
    | _, _ => '%' :: decodePercent (a :: b :: rest)
  | c :: rest => c :: decodePercent rest
  | [] => []

/-- Split a (relative) URI on `/` into path components, keeping empty
components (they are later dropped by path normalization, exactly as
`os.path.normpath` ignores them). -/
def splitSlashAux (acc : List Char) : List Char → List String
  | [] => [String.mk acc.reverse]
  | '/' :: rest => String.mk acc.reverse :: splitSlashAux [] rest
  | c :: rest => splitSlashAux (c :: acc) rest

def splitSlash (l : List Char) : List String :=
  splitSlashAux [] l

/-- Is `pat` a contiguous sublist of `l`?  (Used only to state that some
concrete response contains / does not contain a given header text.) -/
def listInfix (pat : List Char) : List Char → Bool
  | [] => pat.isPrefixOf []
  | c :: rest => pat.isPrefixOf (c :: rest) || listInfix pat rest

/-- Does the string `pat` occur as a substring of `s`? -/
def containsStr (pat s : String) : Bool :=
  listInfix pat.data s.data

/-! ## Path model

An absolute POSIX path is the list of its components below `/`.
`normalize` is `os.path.normpath` on such a list: it drops empty and `.`
components and resolves `..` lexically (`/..` stays at `/`); it follows no
symlinks — exactly the behaviour of `os.path.abspath` on an absolute
path. -/

def normalize (comps : List String) : List String :=
  comps.foldl
    (fun acc c =>
      if c = "" ∨ c = "." then acc
      else if c = ".." then acc.dropLast
      else acc ++ [c])
    []

/-- The canonicalization named by the specification: resolve `.` and `..`
AND follow symlinks (as `os.path.realpath` would).  `links` is a finite
table mapping a symlink's absolute path to its absolute target; each
prefix of the path is looked up as it is built.  (Targets are assumed to
contain no further links, which is all the concrete counterexample
needs.) -/
def resolveWith (links : List (List String × List String)) (comps : List String) :
    List String :=
  comps.foldl
    (fun acc c =>
      let acc :=
        if c = "" ∨ c = "." then acc
        else if c = ".." then acc.dropLast
        else acc ++ [c]
      match List.lookup acc links with
      | some target => target
      | none => acc)
    []

/-! ## Filesystem oracle and the path resolver `get_file` -/

/-- The filesystem collaborator: oracles for `os.path.exists`,
`os.path.isfile`, `os.access(·, R_OK)` and `open(·).read()`. -/
structure FS where
  pexists : List String → Bool
  isfile : List String → Bool
  readable : List String → Bool
  contents : List String → String

inductive FileErr where
  | forbidden  -- PermissionError
  | notFound   -- FileNotFoundError
deriving DecidableEq, Repr

/-- Decidable equality for `Except`, so concrete `get_file` results can be
checked by `decide`. -/
instance exceptDecEq {ε α : Type _} [DecidableEq ε] [DecidableEq α] :
    DecidableEq (Except ε α) := fun a b =>
  match a, b with
  | .error x, .error y =>
    if h : x = y then .isTrue (congrArg Except.error h)
    else .isFalse fun hh => h (Except.error.inj hh)
  | .ok x, .ok y =>
    if h : x = y then .isTrue (congrArg Except.ok h)
    else .isFalse fun hh => h (Except.ok.inj hh)
  | .error _, .ok _ => .isFalse fun hh => Except.noConfusion hh
  | .ok _, .error _ => .isFalse fun hh => Except.noConfusion hh

/-- Function `get_file` from `server.py`.  `root` is `ROOT_DIR` as a component
list (already canonical, since the source sets it with
`os.path.abspath`).  `os.path.commonpath([ROOT_DIR, file]) != ROOT_DIR`
is, for canonical absolute component lists, exactly "`root` is not a
component-wise prefix of `file`". -/
def get_file (fs : FS) (root : List String) (uri : String) :
    Except FileErr (List String) :=
  let uri := if uri = "/" then "/index.html" else uri
  let file := normalize (root ++ splitSlash (uri.data.dropWhile (· = '/')))
  if ¬ root.isPrefixOf file then .error .forbidden
  else if ¬ fs.pexists file ∨ ¬ fs.isfile file then .error .notFound
  else if ¬ fs.readable file then .error .forbidden
  else .ok file

/-! ## HTTP statuses and the response builder `respond` -/

/-- The fragment of Python's `http.HTTPStatus` the server uses: an
integer code and a reason phrase. -/
structure HTTPStatus where
  value : Nat
  phrase : String
deriving DecidableEq, Repr

def OK : HTTPStatus := ⟨200, "OK"⟩
def NO_CONTENT : HTTPStatus := ⟨204, "No Content"⟩
def BAD_REQUEST : HTTPStatus := ⟨400, "Bad Request"⟩
def FORBIDDEN : HTTPStatus := ⟨403, "Forbidden"⟩
def NOT_FOUND : HTTPStatus := ⟨404, "Not Found"⟩

/-- Function `respond` from `server.py`.  Each `response += ...` of the source
appends one element to the list; the byte string written to the socket is
the concatenation of the list (`respondStr`).  `status == 400` compares
the `IntEnum` with the integer 400; `status != HTTPStatus.NO_CONTENT`
with 204. -/
def respond (status : HTTPStatus) (date version body content_type : String)
    (connection : Option String) : List String :=
  let response := [version ++ " " ++ toString status.value ++ " " ++ status.phrase ++ "\r\n"]
  let response := response ++ [date]
  let response := response ++ ["Content-Type: " ++ content_type ++ "\r\n"]
  let response :=
    if body ≠ "" then response ++ ["Content-Length: " ++ toString body.length ++ "\r\n"]
    else response
  let response :=
    if version = "HTTP/1.1" ∧ truthy connection = true then
      response ++ ["Connection: " ++ connection.getD "" ++ "\r\n\r\n"]
    else if status.value = 400 then response ++ ["Connection: close\r\n\r\n"]
    else response ++ ["\r\n"]
  if status.value ≠ 204 then response ++ [body] else response

/-- The exact byte string `respond` produces. -/
def respondStr (status : HTTPStatus) (date version body content_type : String)
    (connection : Option String) : String :=
  String.join (respond status date version body content_type connection)

/-! ## Activity counter and adaptive keep-alive timeout

`_active` is a Python integer guarded by `active_lock`; we model its value
as an `Int` and the two critical sections as pure functions of it. -/

/-- Function `inc_active`: `_active += 1`. -/
def inc_active (c : Int) : Int := c + 1

/-- Function `dec_active`: `_active = max(0, _active - 1)`. -/
def dec_active (c : Int) : Int := max 0 (c - 1)

/-- One "start" (handler entry, `inc_active`) or "finish" (handler exit,
`dec_active` in the `finally` block) event of some connection handler. -/
inductive ActEvent where
  | start
  | finish
deriving DecidableEq, Repr

/-- The value of the activity counter after a sequence of interleaved
handler start/finish events, beginning from `c`. -/
def runActivity (c : Int) : List ActEvent → Int
  | [] => c
  | .start :: rest => runActivity (inc_active c) rest
  | .finish :: rest => runActivity (dec_active c) rest

/-- Function `keepalive_timeout`, as a function of the active-connection count it
reads under the lock. -/
def keepalive_timeout (n : Nat) : Nat :=
  if n < 5 then 10
  else if n < 20 then 5
  else 2

/-! ## The request parser `parse_request`

`parse_request` interleaves blocking reads with checks of the shutdown
flag.  We model the environment of its receive loop as a list of pairs:
at each iteration the loop samples the shutdown flag (the `Bool`) and, if
it keeps running, performs one `recv` that either times out or delivers a
chunk (a zero-length chunk meaning the peer closed the socket).  An
exhausted event list means the loop is still blocked waiting — the model
then returns `none` at `Option RecvOut`, i.e. "no outcome observed". -/

inductive ReadEvent where
  | chunk (s : String)
  | tmout
deriving DecidableEq, Repr

inductive RecvOut where
  | cancelled            -- stop_event set: `return None`
  | broken               -- zero-byte read: `raise ValueError("connection disrupted")`
  | done (raw : List Char)  -- buffer now contains "\r\n\r\n"
deriving DecidableEq, Repr

def recvLoop (acc : List Char) : List (Bool × ReadEvent) → Option RecvOut
  | [] => none
  | (stop, ev) :: rest =>
    if stop then some .cancelled
    else
      match ev with
      | .tmout => recvLoop acc rest
      | .chunk s =>
        if s = "" then some .broken
        else
          let acc := acc ++ s.data
          if hasHdrEnd acc then some (.done acc) else recvLoop acc rest

/-- The parsed request dictionary. -/
structure Request where
  method : String
  uri : String
  version : String
  host : Option String
  connection : Option String
deriving DecidableEq, Repr

/-- The reasons `parse_request` raises `ValueError` (all are surfaced to
the handler as the single bad-request category). -/
inductive ParseErr where
  | connectionDisrupted
  | empty
  | badRequestLine
  | unsupportedMethod
  | missingHost
deriving DecidableEq, Repr

inductive ParseOut where
  | cancelled
  | failed (e : ParseErr)
  | ok (r : Request)
deriving DecidableEq, Repr

/-- The header loop of `parse_request` over `lines[1:]`: stop at the first
blank (after strip) line, skip lines without a colon, lower-case and strip
the name, strip the value, keep the last `Host` and `Connection` values. -/
def headerFold (host connection : Option String) :
    List (List Char) → Option String × Option String
  | [] => (host, connection)
  | h :: rest =>
    if stripWs h = [] then (host, connection)
    else
      match partitionColon h with
      | none => headerFold host connection rest
      | some (k, v) =>
        let key := String.mk ((stripWs k).map Char.toLower)
        let value := String.mk (stripWs v)
        if key = "host" then headerFold (some value) connection rest
        else if key = "connection" then headerFold host (some value) rest
        else headerFold host connection rest

/-- The pure tail of `parse_request`: everything after the receive loop,
applied to the accumulated raw bytes. -/
def parse_lines (raw : List Char) : ParseOut :=
  match splitCRLF raw with
  | [] => .failed .empty   -- `len(lines) < 1`: unreachable, mirrored anyway
  | l0 :: rest =>
    match tokWs [] l0 with
    | [m, u, v] =>
      let method := String.mk m
      let ver := String.mk v
      if ¬ (method = "GET" ∨ method = "HEAD") then .failed .unsupportedMethod
      else
        let hc := headerFold none none rest
        if ver = "HTTP/1.1" ∧ truthy hc.1 = false then .failed .missingHost
        else .ok ⟨method, String.mk (decodePercent u), ver, hc.1, hc.2⟩
    | _ => .failed .badRequestLine

/-- Function `parse_request`.  Here `none` means the receive loop is still blocked
(its event list ran out); `some .cancelled` is Python's `return None`;
`some (.failed e)` is a raised `ValueError`. -/
def parse_request (reads : List (Bool × ReadEvent)) : Option ParseOut :=
  match recvLoop [] reads with
  | none => none
  | some .cancelled => some .cancelled
  | some .broken => some (.failed .connectionDisrupted)
  | some (.done raw) => some (parse_lines raw)

/-! ## The connection handler

One iteration of `handler`'s `while True` loop observes: the shutdown flag
at the top of the loop, the receive-loop events consumed by
`parse_request`, and whether `select.select` reports the socket readable
within the keep-alive timeout.  (The numeric timeout handed to `select` —
`keepalive_timeout()`, or `0.1` once the shutdown flag is set — changes
how long the wait lasts, not which branch the code takes, so the model
keeps only the readiness outcome.) -/

structure CycleEnv where
  stopTop : Bool
  reads : List (Bool × ReadEvent)
  ready : Bool
deriving Repr

/-- The handler's per-cycle local variables at the moment `respond` is
called: `version`, `connection`, `status`, `body`, `content_type`. -/
structure CycleInfo where
  version : String
  connection : Option String
  status : HTTPStatus
  body : String
  content_type : String
deriving DecidableEq, Repr

/-- The persistence test at the bottom of the loop:
`version == "HTTP/1.0" or connection == "close" or status >= 400`. -/
def closeCond (i : CycleInfo) : Prop :=
  i.version = "HTTP/1.0" ∨ i.connection = some "close" ∨ 400 ≤ i.status.value

instance (i : CycleInfo) : Decidable (closeCond i) := by
  unfold closeCond; infer_instance

/-- What the loop does after sending a response: break immediately
(persistence test failed), enter the idle wait and break because the
socket never became readable, or enter the idle wait and loop around to
serve another request. -/
inductive NextAct where
  | closeNow
  | idleClose
  | nextCycle
deriving DecidableEq, Repr

/-- The observable outcome of one loop iteration. -/
inductive CycleOut where
  | stopBreak                 -- shutdown flag set at the top of the loop
  | blocked                   -- still waiting inside the receive loop
  | cancelled                 -- parse_request returned None
  | sent (info : CycleInfo) (resp : List String) (next : NextAct)
deriving DecidableEq, Repr

/-- Send the response built from the current locals and decide
persistence (the code from `respond(...)` down to `select.select`). -/
def finish (date : String) (info : CycleInfo) (env : CycleEnv) : CycleOut :=
  let resp := respond info.status date info.version info.body info.content_type info.connection
  if closeCond info then .sent info resp .closeNow
  else if ¬ env.ready then .sent info resp .idleClose
  else .sent info resp .nextCycle

/-- One iteration of `handler`'s loop.  The `try`/`except` ladder of the
source becomes a case split on `parse_request` / `get_file` results; the
defaults (`version = "HTTP/1.0"`, `connection = None`, `body = b""`,
`content_type = "text/html"`, `status = OK`) survive exactly in the
branches where the source never overwrites them. -/
def handler_cycle (fs : FS) (guess : List String → Option String)
    (root : List String) (date : String) (env : CycleEnv) : CycleOut :=
  if env.stopTop then .stopBreak
  else
    match parse_request env.reads with
    | none => .blocked
    | some .cancelled => .cancelled
    | some (.failed _) =>
      finish date ⟨"HTTP/1.0", none, BAD_REQUEST, "<h1>400 Bad Request</h1>", "text/html"⟩ env
    | some (.ok r) =>
      match get_file fs root r.uri with
      | .error .forbidden =>
        finish date ⟨r.version, r.connection, FORBIDDEN, "<h1>403 Forbidden</h1>", "text/html"⟩ env
      | .error .notFound =>
        finish date ⟨r.version, r.connection, NOT_FOUND, "<h1>404 Not Found</h1>", "text/html"⟩ env
      | .ok file =>
        let content_type := pyOr (guess file) "application/octet-stream"
        let body := if r.method = "GET" then fs.contents file else ""
        finish date ⟨r.version, r.connection, OK, body, content_type⟩ env

/-- Does this iteration outcome loop around for another request? -/
def continues : CycleOut → Bool
  | .sent _ _ .nextCycle => true
  | _ => false

/-- The whole `while True` loop of `handler`, as the trace of its
iteration outcomes over a schedule of per-cycle environments.  The trace
ends at the first iteration that breaks out of the loop. -/
def handler_loop (fs : FS) (guess : List String → Option String)
    (root : List String) (date : String) : List CycleEnv → List CycleOut
  | [] => []
  | env :: rest =>
    let out := handler_cycle fs guess root date env
    if continues out then out :: handler_loop fs guess root date rest
    else [out]

/-- Number of request/response cycles actually served on the socket. -/
def sentCount (trace : List CycleOut) : Nat :=
  trace.countP fun o =>
    match o with
    | .sent _ _ _ => true
    | _ => false

/-- Number of handler-start events in a trace. -/
def countStart : List ActEvent → Nat
  | [] => 0
  | .start :: rest => countStart rest + 1
  | .finish :: rest => countStart rest

/-- Number of handler-end events in a trace. -/
def countFinish : List ActEvent → Nat
  | [] => 0
  | .start :: rest => countFinish rest
  | .finish :: rest => countFinish rest + 1

/-! ## Concrete artefacts used by witnesses and counterexamples -/

/-- A document root `/home/files` whose only (apparent) regular file is
`/home/files/link/passwd`: the OS answers `exists`/`isfile`/`access`
through the symlink `/home/files/link -> /etc`. -/
def symFS : FS where
  pexists := fun p => p == ["home", "files", "link", "passwd"]
  isfile := fun p => p == ["home", "files", "link", "passwd"]
  readable := fun p => p == ["home", "files", "link", "passwd"]
  contents := fun p =>
    if p == ["home", "files", "link", "passwd"] then "root:x:0:0::/root:/bin/bash" else ""

/-- The symlink table of that filesystem: `/home/files/link -> /etc`. -/
def symLinks : List (List String × List String) := [(["home", "files", "link"], ["etc"])]

/-- A root `files` containing only a non-empty `index.html`. -/
def kaFS : FS where
  pexists := fun p => p == ["files", "index.html"]
  isfile := fun p => p == ["files", "index.html"]
  readable := fun p => p == ["files", "index.html"]
  contents := fun p => if p == ["files", "index.html"] then "<html>hi</html>" else ""

/-- A keep-alive-friendly cycle environment: no shutdown, one chunk
delivering a full HTTP/1.1 request, socket readable again afterwards. -/
def kaEnv : CycleEnv :=
  ⟨false, [(false, .chunk "GET /index.html HTTP/1.1\r\nHost: a\r\n\r\n")], true⟩

/-- A cycle environment delivering a malformed request line. -/
def badEnv : CycleEnv := ⟨false, [(false, .chunk "bad\r\n\r\n")], true⟩

/-- A root `files` containing only an empty file `empty.txt`. -/
def emptyFS : FS where
  pexists := fun p => p == ["files", "empty.txt"]
  isfile := fun p => p == ["files", "empty.txt"]
  readable := fun p => p == ["files", "empty.txt"]
  contents := fun _ => ""

/-- A cycle environment requesting `GET /empty.txt HTTP/1.0`. -/
def emptyEnv : CycleEnv := ⟨false, [(false, .chunk "GET /empty.txt HTTP/1.0\r\n\r\n")], true⟩

/-- A cycle environment requesting `HEAD /index.html HTTP/1.1`. -/
def headEnv : CycleEnv :=
  ⟨false, [(false, .chunk "HEAD /index.html HTTP/1.1\r\nHost: a\r\n\r\n")], true⟩

/-- The Connection-header chunk (possibly just the terminating blank line)
that `respond` appends after the entity headers. -/
def connChunk (status : HTTPStatus) (version : String) (connection : Option String) :
    List String :=
  if version = "HTTP/1.1" ∧ truthy connection = true then
    ["Connection: " ++ connection.getD "" ++ "\r\n\r\n"]
  else if status.value = 400 then ["Connection: close\r\n\r\n"]
  else ["\r\n"]

/-! ## Helper lemmas -/

/-- The chunks of `respond`, decomposed: status line, date, content type, an optional
Content-Length chunk (present exactly when the body is non-empty), the
Connection chunk, and the body (suppressed only for 204). -/
theorem respond_decomp (status : HTTPStatus) (date version body ct : String)
    (c : Option String) :
    respond status date version body ct c =
      ([version ++ " " ++ toString status.value ++ " " ++ status.phrase ++ "\r\n", date,
        "Content-Type: " ++ ct ++ "\r\n"] ++
        (if body ≠ "" then ["Content-Length: " ++ toString body.length ++ "\r\n"] else []) ++
        connChunk status version c) ++
      (if status.value ≠ 204 then [body] else []) := by
  unfold respond connChunk
  split_ifs <;> simp_all

theorem strFoldlAppend (l : List String) : ∀ a : String,
    l.foldl (· ++ ·) a = a ++ l.foldl (· ++ ·) "" := by
  induction l with
  | nil => intro a; simp [List.foldl]
  | cons b l ih =>
    intro a
    simp only [List.foldl]
    rw [ih (a ++ b), ih ("" ++ b), String.empty_append, String.append_assoc]

theorem strJoin_cons (a : String) (l : List String) :
    String.join (a :: l) = a ++ String.join l := by
  show (a :: l).foldl (· ++ ·) "" = a ++ l.foldl (· ++ ·) ""
  simp only [List.foldl]
  rw [strFoldlAppend l ("" ++ a), String.empty_append]

/-- The function `finish` always sends, and picks the next action from the persistence
test and the idle-wait readiness. -/
theorem finish_eq (date : String) (info : CycleInfo) (env : CycleEnv) :
    finish date info env =
      .sent info
        (respond info.status date info.version info.body info.content_type info.connection)
        (if closeCond info then .closeNow
         else if ¬ env.ready then .idleClose else .nextCycle) := by
  unfold finish
  split_ifs <;> rfl

/-- A cycle whose parse raised `ValueError` responds 400 with the
handler's pre-parse defaults (`version = "HTTP/1.0"`, `connection =
None`) and then breaks out of the loop (400 ≥ 400). -/
theorem handler_cycle_of_parse_failed (fs : FS) (guess : List String → Option String)
    (root : List String) (date : String) (env : CycleEnv) (e : ParseErr)
    (hstop : env.stopTop = false)
    (hfail : parse_request env.reads = some (.failed e)) :
    handler_cycle fs guess root date env =
      .sent ⟨"HTTP/1.0", none, BAD_REQUEST, "<h1>400 Bad Request</h1>", "text/html"⟩
        (respond BAD_REQUEST date "HTTP/1.0" "<h1>400 Bad Request</h1>" "text/html" none)
        .closeNow := by
  unfold handler_cycle
  rw [hstop, hfail]
  simp only [Bool.false_eq_true, if_false]
  rw [finish_eq]
  norm_num [closeCond, BAD_REQUEST]

/-- A cycle whose parse returned `None` (shutdown observed inside the
receive loop) breaks out of the loop without sending anything. -/
theorem handler_cycle_of_cancelled (fs : FS) (guess : List String → Option String)
    (root : List String) (date : String) (env : CycleEnv)
    (hstop : env.stopTop = false)
    (hcan : parse_request env.reads = some .cancelled) :
    handler_cycle fs guess root date env = .cancelled := by
  unfold handler_cycle
  rw [hstop, hcan]
  rfl

/-- A cycle that parsed a request and resolved its path serves a 200 with
the file's bytes (GET) or an empty body (HEAD) and the guessed content
type. -/
theorem handler_cycle_of_ok (fs : FS) (guess : List String → Option String)
    (root : List String) (date : String) (env : CycleEnv) (r : Request)
    (file : List String)
    (hstop : env.stopTop = false)
    (hok : parse_request env.reads = some (.ok r))
    (hfile : get_file fs root r.uri = .ok file) :
    handler_cycle fs guess root date env =
      finish date
        ⟨r.version, r.connection, OK,
          (if r.method = "GET" then fs.contents file else ""),
          pyOr (guess file) "application/octet-stream"⟩ env := by
  unfold handler_cycle
  simp only [hstop, hok, Bool.false_eq_true, if_false]
  rw [hfile]

/-- The function `finish` never changes the cycle info it is handed, and its next
action is `closeNow` exactly when the persistence test fires. -/
theorem finish_sent (date : String) (info : CycleInfo) (env : CycleEnv)
    (info2 : CycleInfo) (resp : List String) (next : NextAct)
    (h : finish date info env = .sent info2 resp next) :
    info2 = info ∧ (closeCond info → next = .closeNow) ∧
      (¬ closeCond info → next ≠ .closeNow) := by
  rw [finish_eq] at h
  injection h with h1 h2 h3
  refine ⟨h1.symm, ?_, ?_⟩
  · intro hc
    rw [← h3, if_pos hc]
  · intro hc
    rw [← h3, if_neg hc]
    by_cases hr : env.ready = true
    · simp [hr]
    · simp [hr]

/-- Every `sent` outcome of a cycle closes exactly when its info meets the
persistence test. -/
theorem handler_cycle_sent (fs : FS) (guess : List String → Option String)
    (root : List String) (date : String) (env : CycleEnv)
    (info : CycleInfo) (resp : List String) (next : NextAct)
    (h : handler_cycle fs guess root date env = .sent info resp next) :
    (closeCond info → next = .closeNow) ∧ (¬ closeCond info → next ≠ .closeNow) := by
  unfold handler_cycle at h
  split at h
  · exact absurd h (by simp)
  · split at h
    · exact absurd h (by simp)
    · exact absurd h (by simp)
    · obtain ⟨hinfo, hc1, hc2⟩ := finish_sent _ _ _ _ _ _ h
      subst hinfo
      exact ⟨hc1, hc2⟩
    · split at h
      · obtain ⟨hinfo, hc1, hc2⟩ := finish_sent _ _ _ _ _ _ h
        subst hinfo
        exact ⟨hc1, hc2⟩
      · obtain ⟨hinfo, hc1, hc2⟩ := finish_sent _ _ _ _ _ _ h
        subst hinfo
        exact ⟨hc1, hc2⟩
      · obtain ⟨hinfo, hc1, hc2⟩ := finish_sent _ _ _ _ _ _ h
        subst hinfo
        exact ⟨hc1, hc2⟩

/-- Consecutive elements of the handler trace: an element is followed by
another only if it looped around (`nextCycle`). -/
theorem handler_loop_get_succ (fs : FS) (guess : List String → Option String)
    (root : List String) (date : String) :
    ∀ (envs : List CycleEnv) (i : Nat) (o o' : CycleOut),
      (handler_loop fs guess root date envs).get? i = some o →
      (handler_loop fs guess root date envs).get? (i + 1) = some o' →
      continues o = true := by
  intro envs
  induction envs with
  | nil =>
    intro i o o' h1 _
    simp [handler_loop] at h1
  | cons env rest ih =>
    intro i o o' h1 h2
    simp only [handler_loop] at h1 h2
    by_cases hc : continues (handler_cycle fs guess root date env) = true
    · rw [if_pos hc] at h1 h2
      cases i with
      | zero =>
        simp only [List.get?] at h1
        cases h1
        exact hc
      | succ n =>
        exact ih n o o' h1 h2
    · rw [if_neg hc] at h1 h2
      cases i with
      | zero => simp at h2
      | succ n => simp at h1

/-- Every element of the handler trace is the outcome of running one
cycle on one of the scheduled environments. -/
theorem handler_loop_mem (fs : FS) (guess : List String → Option String)
    (root : List String) (date : String) :
    ∀ (envs : List CycleEnv) (o : CycleOut),
      o ∈ handler_loop fs guess root date envs →
      ∃ env, env ∈ envs ∧ o = handler_cycle fs guess root date env := by
  intro envs
  induction envs with
  | nil =>
    intro o h
    simp [handler_loop] at h
  | cons env rest ih =>
    intro o h
    simp only [handler_loop] at h
    by_cases hc : continues (handler_cycle fs guess root date env) = true
    · rw [if_pos hc] at h
      rcases List.mem_cons.mp h with h | h
      · exact ⟨env, List.mem_cons_self env rest, h⟩
      · obtain ⟨env2, hm, he⟩ := ih o h
        exact ⟨env2, List.mem_cons_of_mem env hm, he⟩
    · rw [if_neg hc] at h
      rw [List.mem_singleton] at h
      exact ⟨env, List.mem_cons_self env rest, h⟩

theorem runActivity_nonneg (evs : List ActEvent) : ∀ c : Int, 0 ≤ c →
    0 ≤ runActivity c evs := by
  induction evs with
  | nil => intro c hc; simpa [runActivity] using hc
  | cons e rest ih =>
    intro c hc
    cases e with
    | start => exact ih (inc_active c) (by simp [inc_active]; omega)
    | finish => exact ih (dec_active c) (le_max_left 0 (c - 1))

theorem runActivity_eq (evs : List ActEvent) : ∀ c : Int, 0 ≤ c →
    (∀ p, p <+: evs → (countFinish p : Int) ≤ c + countStart p) →
    runActivity c evs = c + countStart evs - countFinish evs := by
  induction evs with
  | nil =>
    intro c _ _
    simp [runActivity, countStart, countFinish]
  | cons e rest ih =>
    intro c hc hval
    cases e with
    | start =>
      have h := ih (c + 1) (by omega) ?_
      · simp only [runActivity, inc_active, countStart, countFinish]
        rw [h]; push_cast; ring
      · intro p hp
        have h2 := hval (.start :: p) ?_
        · simp only [countStart, countFinish] at h2; push_cast at h2 ⊢; omega
        · obtain ⟨t, ht⟩ := hp
          exact ⟨t, by rw [List.cons_append, ht]⟩
    | finish =>
      have hone : (1 : Int) ≤ c := by
        have h1 := hval [.finish] ⟨rest, rfl⟩
        simpa [countStart, countFinish] using h1
      have hdec : dec_active c = c - 1 := by
        simp only [dec_active]; omega
      have h := ih (c - 1) (by omega) ?_
      · simp only [runActivity, countStart, countFinish]
        rw [hdec, h]; push_cast; ring
      · intro p hp
        have h2 := hval (.finish :: p) ?_
        · simp only [countStart, countFinish] at h2; push_cast at h2 ⊢; omega
        · obtain ⟨t, ht⟩ := hp
          exact ⟨t, by rw [List.cons_append, ht]⟩

/-! ## Claim theorems -/

/-- C1.  The claim asserts that whenever the candidate path, canonicalized
WITH symlinks resolved, lies outside the document root, `get_file` fails
with Forbidden — "including when the escape happens via a symlink".  The
source canonicalizes with `os.path.abspath`, which resolves `.` and `..`
lexically but follows no symlinks, so a symlink escape passes the
containment check: with document root `/home/files` containing a symlink
`link -> /etc`, the request `/link/passwd` has a symlink-canonical path
`/etc/passwd` outside the root, yet `get_file` returns the path (and the
handler would serve `/etc/passwd`'s bytes) instead of failing Forbidden. -/
theorem C1_symlink_escape :
    resolveWith symLinks
        (["home", "files"] ++ splitSlash ("/link/passwd".data.dropWhile (· = '/'))) =
      ["etc", "passwd"] ∧
    (["home", "files"] : List String).isPrefixOf ["etc", "passwd"] = false ∧
    get_file symFS ["home", "files"] "/link/passwd" = .ok ["home", "files", "link", "passwd"] ∧
    symFS.contents ["home", "files", "link", "passwd"] ≠ "" := by
  decide

/-- C7: for every filesystem and document root, resolving `/` is
definitionally the same computation as resolving `/index.html`. -/
theorem C7_root_is_index (fs : FS) (root : List String) :
    get_file fs root "/" = get_file fs root "/index.html" := rfl

/-- C8: the keep-alive timeout is 10 below 5 active connections, 5 from 5
to 19, and 2 from 20 on; consequently it is monotonically non-increasing
in the count, and on the counts 0, 4, 5, 19, 20, 50 it yields
10, 10, 5, 5, 2, 2. -/
theorem C8_keepalive_timeout (n m : Nat) (h : n ≤ m) :
    (n < 5 → keepalive_timeout n = 10) ∧
    (5 ≤ n → n < 20 → keepalive_timeout n = 5) ∧
    (20 ≤ n → keepalive_timeout n = 2) ∧
    keepalive_timeout m ≤ keepalive_timeout n ∧
    [keepalive_timeout 0, keepalive_timeout 4, keepalive_timeout 5,
      keepalive_timeout 19, keepalive_timeout 20, keepalive_timeout 50] =
      [10, 10, 5, 5, 2, 2] := by
  unfold keepalive_timeout
  refine ⟨?_, ?_, ?_, ?_, by decide⟩ <;> intros <;> split_ifs <;> omega

/-- Witness for C8 at the concrete pair 3 ≤ 7. -/
theorem C8_keepalive_timeout_witness :
    keepalive_timeout 3 = 10 ∧ keepalive_timeout 7 ≤ keepalive_timeout 3 := by
  have h := C8_keepalive_timeout 3 7 (by omega)
  exact ⟨h.1 (by omega), h.2.2.2.1⟩

/-- C6: over any interleaving of handler start (increment) and end
(decrement) events in which no handler ends before it started (every
prefix has at least as many starts as ends — guaranteed in the source
because `dec_active` sits in the `finally` of a handler that ran
`inc_active` first), the counter stays non-negative, always equals
"started minus ended", and returns to 0 once every started handler has
ended. -/
theorem C6_activity_counter (evs : List ActEvent)
    (hvalid : ∀ n, n ≤ evs.length →
      countFinish (evs.take n) ≤ countStart (evs.take n)) :
    0 ≤ runActivity 0 evs ∧
    runActivity 0 evs = (countStart evs : Int) - countFinish evs ∧
    (countFinish evs = countStart evs → runActivity 0 evs = 0) := by
  have hpre : ∀ p, p <+: evs → (countFinish p : Int) ≤ 0 + countStart p := by
    intro p hp
    have hlen : p.length ≤ evs.length := hp.length_le
    have htake : p = evs.take p.length := List.prefix_iff_eq_take.mp hp
    have h := hvalid p.length hlen
    rw [← htake] at h
    omega
  have heq := runActivity_eq evs 0 le_rfl hpre
  refine ⟨runActivity_nonneg evs 0 le_rfl, by omega, fun hfin => by omega⟩

/-- C3 counterexample: a 403/404-class response that did not negotiate an
HTTP/1.1 connection directive carries NO Connection header at all, while
the claim requires `Connection: close` for every 4xx status: the concrete
404 response built by the source (as the handler builds it for a missing
file over HTTP/1.0) contains no occurrence of "Connection".  The source
only emits `Connection: close` when the status equals 400 exactly. -/
theorem C3_counterexample :
    (400 ≤ NOT_FOUND.value ∧ NOT_FOUND.value < 500) ∧
    ¬ (("HTTP/1.0" : String) = "HTTP/1.1" ∧ truthy (none : Option String) = true) ∧
    containsStr "Connection"
      (respondStr NOT_FOUND "Date: D\r\n" "HTTP/1.0" "<h1>404 Not Found</h1>"
        "text/html" none) = false := by
  decide

/-- C3 (amended): if the version is HTTP/1.1 and a connection directive
was negotiated (non-`None`, non-empty), the response contains
`Connection: <directive>`; else if the status is EXACTLY 400 it contains
`Connection: close`; otherwise (including 403 and 404) the header block
ends with a bare blank line and no Connection header chunk is emitted. -/
theorem C3_connection_header (status : HTTPStatus) (date version body ct : String)
    (c : Option String) :
    (version = "HTTP/1.1" → truthy c = true →
      "Connection: " ++ c.getD "" ++ "\r\n\r\n" ∈ respond status date version body ct c) ∧
    (¬ (version = "HTTP/1.1" ∧ truthy c = true) → status.value = 400 →
      "Connection: close\r\n\r\n" ∈ respond status date version body ct c) ∧
    (¬ (version = "HTTP/1.1" ∧ truthy c = true) → status.value ≠ 400 →
      respond status date version body ct c =
        ([version ++ " " ++ toString status.value ++ " " ++ status.phrase ++ "\r\n", date,
          "Content-Type: " ++ ct ++ "\r\n"] ++
          (if body ≠ "" then ["Content-Length: " ++ toString body.length ++ "\r\n"] else []) ++
          ["\r\n"]) ++
        (if status.value ≠ 204 then [body] else [])) := by
  refine ⟨?_, ?_, ?_⟩ <;> intro h1 h2 <;> rw [respond_decomp] <;> simp [connChunk, h1, h2]

/-- Witness for C3 (amended): a keep-alive HTTP/1.1 200 response carries
`Connection: keep-alive`, and a 400 response without a negotiated
directive carries `Connection: close`. -/
theorem C3_connection_header_witness :
    "Connection: " ++ (some "keep-alive" : Option String).getD "" ++ "\r\n\r\n" ∈
      respond OK "Date: D\r\n" "HTTP/1.1" "<html>hi</html>" "text/html" (some "keep-alive") ∧
    "Connection: close\r\n\r\n" ∈
      respond BAD_REQUEST "Date: D\r\n" "HTTP/1.0" "<h1>400 Bad Request</h1>"
        "text/html" none :=
  ⟨(C3_connection_header OK "Date: D\r\n" "HTTP/1.1" "<html>hi</html>" "text/html"
      (some "keep-alive")).1 rfl (by decide),
   (C3_connection_header BAD_REQUEST "Date: D\r\n" "HTTP/1.0" "<h1>400 Bad Request</h1>"
      "text/html" none).2.1 (by decide) rfl⟩

/-- C5 counterexample: a successful (200) GET of an existing but EMPTY
file produces a response with no Content-Length header at all, because
the source only emits the header when `body` is truthy — so the claim's
"a successful GET of an existing file carries Content-Length equal to the
file's size" fails at file size 0. -/
theorem C5_counterexample :
    emptyFS.pexists ["files", "empty.txt"] = true ∧
    emptyFS.isfile ["files", "empty.txt"] = true ∧
    handler_cycle emptyFS (fun _ => some "text/plain") ["files"] "Date: D\r\n" emptyEnv =
      .sent ⟨"HTTP/1.0", none, OK, "", "text/plain"⟩
        ["HTTP/1.0 200 OK\r\n", "Date: D\r\n", "Content-Type: text/plain\r\n", "\r\n", ""]
        .closeNow ∧
    containsStr "Content-Length"
      (respondStr OK "Date: D\r\n" "HTTP/1.0" "" "text/plain" none) = false := by
  decide

/-- C5 (amended): `Content-Length: <len(body)>` is emitted exactly when
the body is non-empty, with the exact length of the body; a HEAD of a
resolved file is served with an empty body (hence no Content-Length), and
a GET is served with the file's bytes as the body (hence, when the file
is non-empty, a Content-Length equal to the file's size). -/
theorem C5_content_length (status : HTTPStatus) (date version body ct : String)
    (c : Option String) :
    (body ≠ "" →
      "Content-Length: " ++ toString body.length ++ "\r\n" ∈
        respond status date version body ct c) ∧
    (body = "" →
      respond status date version body ct c =
        ([version ++ " " ++ toString status.value ++ " " ++ status.phrase ++ "\r\n", date,
          "Content-Type: " ++ ct ++ "\r\n"] ++ connChunk status version c) ++
        (if status.value ≠ 204 then [body] else [])) ∧
    (∀ (fs : FS) (guess : List String → Option String) (root : List String)
        (env : CycleEnv) (r : Request) (file : List String),
      env.stopTop = false →
      parse_request env.reads = some (.ok r) →
      get_file fs root r.uri = .ok file →
      r.method = "HEAD" →
      ∃ next, handler_cycle fs guess root date env =
        .sent ⟨r.version, r.connection, OK, "", pyOr (guess file) "application/octet-stream"⟩
          (respond OK date r.version "" (pyOr (guess file) "application/octet-stream")
            r.connection) next) ∧
    (∀ (fs : FS) (guess : List String → Option String) (root : List String)
        (env : CycleEnv) (r : Request) (file : List String),
      env.stopTop = false →
      parse_request env.reads = some (.ok r) →
      get_file fs root r.uri = .ok file →
      r.method = "GET" →
      ∃ next, handler_cycle fs guess root date env =
        .sent ⟨r.version, r.connection, OK, fs.contents file,
            pyOr (guess file) "application/octet-stream"⟩
          (respond OK date r.version (fs.contents file)
            (pyOr (guess file) "application/octet-stream") r.connection) next) := by
  refine ⟨?_, ?_, ?_, ?_⟩
  · intro h
    rw [respond_decomp]
    simp [h]
  · intro h
    rw [respond_decomp]
    simp [h]
  · intro fs guess root env r file hstop hok hfile hmeth
    rw [handler_cycle_of_ok fs guess root date env r file hstop hok hfile, finish_eq]
    exact ⟨_, by rw [hmeth]; rfl⟩
  · intro fs guess root env r file hstop hok hfile hmeth
    rw [handler_cycle_of_ok fs guess root date env r file hstop hok hfile, finish_eq]
    exact ⟨_, by rw [hmeth]; rfl⟩

/-- Witness for C5 (amended): the Content-Length chunk of a concrete
non-empty 200 body, and the empty-bodied HEAD cycle on a concrete
filesystem. -/
theorem C5_content_length_witness :
    ("<html>hi</html>" : String) ≠ "" ∧
    ("Content-Length: " ++ toString ("<html>hi</html>" : String).length ++ "\r\n" ∈
      respond OK "Date: D\r\n" "HTTP/1.1" "<html>hi</html>" "text/html" none) ∧
    ∃ next,
      handler_cycle kaFS (fun _ => some "text/html") ["files"] "Date: D\r\n" headEnv =
        .sent ⟨"HTTP/1.1", none, OK, "",
            pyOr ((fun _ => some "text/html") ["files", "index.html"])
              "application/octet-stream"⟩
          (respond OK "Date: D\r\n" "HTTP/1.1" ""
            (pyOr ((fun _ => some "text/html") ["files", "index.html"])
              "application/octet-stream") none) next := by
  have h1 := (C5_content_length OK "Date: D\r\n" "HTTP/1.1" "<html>hi</html>" "text/html"
    none).1 (by decide)
  have h3 := (C5_content_length OK "Date: D\r\n" "HTTP/1.1" "" "text/html" none).2.2.1
    kaFS (fun _ => some "text/html") ["files"] headEnv
    ⟨"HEAD", "/index.html", "HTTP/1.1", some "a", none⟩ ["files", "index.html"]
    rfl (by decide) (by decide) rfl
  exact ⟨by decide, h1, h3⟩

/-- Witness for C6 on the interleaved trace
start, start, finish, start, finish, finish. -/
theorem C6_activity_counter_witness :
    0 ≤ runActivity 0 [.start, .start, .finish, .start, .finish, .finish] ∧
    runActivity 0 [.start, .start, .finish, .start, .finish, .finish] =
      (countStart [.start, .start, .finish, .start, .finish, .finish] : Int) -
        countFinish [.start, .start, .finish, .start, .finish, .finish] ∧
    (countFinish [.start, .start, .finish, .start, .finish, .finish] =
        countStart [.start, .start, .finish, .start, .finish, .finish] →
      runActivity 0 [.start, .start, .finish, .start, .finish, .finish] = 0) :=
  C6_activity_counter [.start, .start, .finish, .start, .finish, .finish] (by decide)

/-- C2: a served cycle whose request version is HTTP/1.0, or whose
negotiated Connection directive is "close", or whose response status is
≥ 400, breaks out of the loop immediately and is the last element of the
trace — no further request is served on the socket.  A cycle meeting none
of those conditions does not break immediately (it enters the idle wait),
and may indeed serve another request: some schedule produces a trace with
a second served element. -/
theorem C2_persistence (fs : FS) (guess : List String → Option String)
    (root : List String) (date : String) (envs : List CycleEnv) (i : Nat)
    (info : CycleInfo) (resp : List String) (next : NextAct)
    (h : (handler_loop fs guess root date envs).get? i = some (.sent info resp next)) :
    (closeCond info → next = .closeNow ∧
      (handler_loop fs guess root date envs).get? (i + 1) = none) ∧
    (¬ closeCond info → next ≠ .closeNow) ∧
    (∃ (fs2 : FS) (root2 : List String) (envs2 : List CycleEnv)
        (info2 : CycleInfo) (resp2 : List String) (next2 : NextAct),
      (handler_loop fs2 guess root2 date envs2).get? 1 = some (.sent info2 resp2 next2)) := by
  have hmem : (CycleOut.sent info resp next) ∈ handler_loop fs guess root date envs :=
    List.get?_mem h
  obtain ⟨env, _, he⟩ := handler_loop_mem fs guess root date envs _ hmem
  have hcs := handler_cycle_sent fs guess root date env info resp next he.symm
  refine ⟨?_, hcs.2, ⟨kaFS, ["files"], [kaEnv, kaEnv], _, _, _, rfl⟩⟩
  intro hclose
  have hnext := hcs.1 hclose
  refine ⟨hnext, ?_⟩
  rcases hn : (handler_loop fs guess root date envs).get? (i + 1) with _ | o'
  · rfl
  · have hcont := handler_loop_get_succ fs guess root date envs i _ _ h hn
    subst hnext
    simp [continues] at hcont

/-- Witness for C2: a malformed request (status 400) is served and the
trace ends right after it. -/
theorem C2_persistence_witness :
    (handler_loop kaFS (fun _ => none) ["files"] "Date: D\r\n" [badEnv]).get? 1 = none := by
  have h := C2_persistence kaFS (fun _ => none) ["files"] "Date: D\r\n" [badEnv] 0
    ⟨"HTTP/1.0", none, BAD_REQUEST, "<h1>400 Bad Request</h1>", "text/html"⟩
    (respond BAD_REQUEST "Date: D\r\n" "HTTP/1.0" "<h1>400 Bad Request</h1>" "text/html" none)
    .closeNow (by decide)
  exact (h.1 (Or.inl rfl)).2

/-- C4: a request whose request line tokenizes to a supported method, a
URI and exactly the version "HTTP/1.1", but whose headers produce no Host
value, fails parsing with the missing-Host condition, and the handler
then responds 400 Bad Request — for every filesystem and root, i.e.
regardless of whether the URI would have resolved. -/
theorem C4_missing_host (raw l0 : List Char) (hdrs : List (List Char))
    (m u v : List Char)
    (fs : FS) (guess : List String → Option String) (root : List String)
    (date : String) (env : CycleEnv)
    (hsplit : splitCRLF raw = l0 :: hdrs)
    (htok : tokWs [] l0 = [m, u, v])
    (hm : String.mk m = "GET" ∨ String.mk m = "HEAD")
    (hv : String.mk v = "HTTP/1.1")
    (hhost : (headerFold none none hdrs).1 = none)
    (hstop : env.stopTop = false)
    (hrecv : recvLoop [] env.reads = some (.done raw)) :
    parse_lines raw = .failed .missingHost ∧
    handler_cycle fs guess root date env =
      .sent ⟨"HTTP/1.0", none, BAD_REQUEST, "<h1>400 Bad Request</h1>", "text/html"⟩
        (respond BAD_REQUEST date "HTTP/1.0" "<h1>400 Bad Request</h1>" "text/html" none)
        .closeNow := by
  have hp : parse_lines raw = .failed .missingHost := by
    unfold parse_lines
    simp only [hsplit, htok]
    rcases hm with h | h <;> simp [h, hv, hhost, truthy]
  refine ⟨hp, ?_⟩
  have hfail : parse_request env.reads = some (.failed .missingHost) := by
    unfold parse_request
    simp only [hrecv, hp]
  exact handler_cycle_of_parse_failed fs guess root date env .missingHost hstop hfail

/-- Witness for C4 on the request `GET / HTTP/1.1\r\n\r\n`. -/
theorem C4_missing_host_witness :
    parse_lines ("GET / HTTP/1.1\r\n\r\n".data) = .failed .missingHost ∧
    handler_cycle kaFS (fun _ => none) ["files"] "Date: D\r\n"
        ⟨false, [(false, .chunk "GET / HTTP/1.1\r\n\r\n")], true⟩ =
      .sent ⟨"HTTP/1.0", none, BAD_REQUEST, "<h1>400 Bad Request</h1>", "text/html"⟩
        (respond BAD_REQUEST "Date: D\r\n" "HTTP/1.0" "<h1>400 Bad Request</h1>"
          "text/html" none)
        .closeNow :=
  C4_missing_host "GET / HTTP/1.1\r\n\r\n".data "GET / HTTP/1.1".data [[], []]
    "GET".data "/".data "HTTP/1.1".data
    kaFS (fun _ => none) ["files"] "Date: D\r\n"
    ⟨false, [(false, .chunk "GET / HTTP/1.1\r\n\r\n")], true⟩
    (by decide) (by decide) (Or.inl rfl) rfl (by decide) rfl (by decide)

/-- C9: a zero-byte read before the header terminator makes the receive
loop report a broken connection, which `parse_request` surfaces as the
connection-disrupted `ValueError` and the handler turns into a 400
response for that cycle (a response is still sent; the process
continues); a read timeout merely retries the loop; and the shutdown flag
being set at a loop iteration yields a clean cancellation (`None`), which
the handler treats as a silent break, not a failure. -/
theorem C9_disruption_timeout_shutdown :
    (∀ (acc : List Char) (rest : List (Bool × ReadEvent)),
      recvLoop acc ((false, .chunk "") :: rest) = some .broken) ∧
    (∀ reads, recvLoop [] reads = some .broken →
      parse_request reads = some (.failed .connectionDisrupted)) ∧
    (∀ (fs : FS) (guess : List String → Option String) (root : List String)
        (date : String) (env : CycleEnv),
      env.stopTop = false →
      parse_request env.reads = some (.failed .connectionDisrupted) →
      handler_cycle fs guess root date env =
        .sent ⟨"HTTP/1.0", none, BAD_REQUEST, "<h1>400 Bad Request</h1>", "text/html"⟩
          (respond BAD_REQUEST date "HTTP/1.0" "<h1>400 Bad Request</h1>" "text/html" none)
          .closeNow) ∧
    (∀ (acc : List Char) (rest : List (Bool × ReadEvent)),
      recvLoop acc ((false, .tmout) :: rest) = recvLoop acc rest) ∧
    (∀ (acc : List Char) (ev : ReadEvent) (rest : List (Bool × ReadEvent)),
      recvLoop acc ((true, ev) :: rest) = some .cancelled) ∧
    (∀ reads, recvLoop [] reads = some .cancelled →
      parse_request reads = some .cancelled) ∧
    (∀ (fs : FS) (guess : List String → Option String) (root : List String)
        (date : String) (env : CycleEnv),
      env.stopTop = false →
      parse_request env.reads = some .cancelled →
      handler_cycle fs guess root date env = .cancelled) := by
  refine ⟨fun acc rest => rfl, ?_, ?_, fun acc rest => rfl, fun acc ev rest => rfl, ?_, ?_⟩
  · intro reads h
    unfold parse_request
    rw [h]
  · intro fs guess root date env hstop hfail
    exact handler_cycle_of_parse_failed fs guess root date env .connectionDisrupted hstop hfail
  · intro reads h
    unfold parse_request
    rw [h]
  · intro fs guess root date env hstop hcan
    exact handler_cycle_of_cancelled fs guess root date env hstop hcan

/-- Witness for C9 on concrete read schedules. -/
theorem C9_disruption_timeout_shutdown_witness :
    recvLoop [] [(false, .chunk "")] = some .broken ∧
    parse_request [(false, ReadEvent.chunk "")] = some (.failed .connectionDisrupted) ∧
    handler_cycle kaFS (fun _ => none) ["files"] "Date: D\r\n"
        ⟨false, [(false, .chunk "")], true⟩ =
      .sent ⟨"HTTP/1.0", none, BAD_REQUEST, "<h1>400 Bad Request</h1>", "text/html"⟩
        (respond BAD_REQUEST "Date: D\r\n" "HTTP/1.0" "<h1>400 Bad Request</h1>"
          "text/html" none)
        .closeNow ∧
    recvLoop [] [(false, .tmout), (true, .chunk "x")] =
      recvLoop [] [(true, .chunk "x")] ∧
    recvLoop [] [(true, .chunk "x")] = some .cancelled ∧
    parse_request [(true, ReadEvent.chunk "x")] = some .cancelled ∧
    handler_cycle kaFS (fun _ => none) ["files"] "Date: D\r\n"
        ⟨false, [(true, .chunk "x")], true⟩ = .cancelled := by
  have h := C9_disruption_timeout_shutdown
  exact ⟨h.1 [] [], h.2.1 _ rfl,
    h.2.2.1 kaFS (fun _ => none) ["files"] "Date: D\r\n" _ rfl (h.2.1 _ rfl),
    h.2.2.2.1 [] [(true, .chunk "x")], h.2.2.2.2.1 [] (.chunk "x") [],
    h.2.2.2.2.2.1 _ rfl,
    h.2.2.2.2.2.2 kaFS (fun _ => none) ["files"] "Date: D\r\n" _ rfl
      (h.2.2.2.2.2.1 _ rfl)⟩

/-- C10: when parsing fails, the handler's `version` variable still holds
its pre-parse default "HTTP/1.0", so the 400 response's status line —
the first chunk of the response, hence the first bytes on the wire — is
"HTTP/1.0 400 Bad Request\r\n" no matter what version string the client
sent in its (unparsable) request. -/
theorem C10_parse_fail_http10 (fs : FS) (guess : List String → Option String)
    (root : List String) (date : String) (env : CycleEnv) (e : ParseErr)
    (hstop : env.stopTop = false)
    (hfail : parse_request env.reads = some (.failed e)) :
    ∃ rest : List String,
      handler_cycle fs guess root date env =
        .sent ⟨"HTTP/1.0", none, BAD_REQUEST, "<h1>400 Bad Request</h1>", "text/html"⟩
          ("HTTP/1.0 400 Bad Request\r\n" :: rest) .closeNow ∧
      respondStr BAD_REQUEST date "HTTP/1.0" "<h1>400 Bad Request</h1>" "text/html" none =
        "HTTP/1.0 400 Bad Request\r\n" ++ String.join rest := by
  have hc := handler_cycle_of_parse_failed fs guess root date env e hstop hfail
  have hr : respond BAD_REQUEST date "HTTP/1.0" "<h1>400 Bad Request</h1>" "text/html" none =
      "HTTP/1.0 400 Bad Request\r\n" ::
        [date, "Content-Type: text/html\r\n", "Content-Length: 24\r\n",
          "Connection: close\r\n\r\n", "<h1>400 Bad Request</h1>"] := rfl
  refine ⟨[date, "Content-Type: text/html\r\n", "Content-Length: 24\r\n",
    "Connection: close\r\n\r\n", "<h1>400 Bad Request</h1>"], ?_, ?_⟩
  · rw [hc, hr]
  · unfold respondStr
    rw [hr, strJoin_cons]

/-- Witness for C10: the client announced HTTP/1.1 on a malformed request
line (four fields), yet the status line starts with HTTP/1.0. -/
theorem C10_parse_fail_http10_witness :
    ∃ rest : List String,
      handler_cycle kaFS (fun _ => none) ["files"] "Date: D\r\n"
          ⟨false, [(false, .chunk "GET /a b HTTP/1.1\r\n\r\n")], true⟩ =
        .sent ⟨"HTTP/1.0", none, BAD_REQUEST, "<h1>400 Bad Request</h1>", "text/html"⟩
          ("HTTP/1.0 400 Bad Request\r\n" :: rest) .closeNow ∧
      respondStr BAD_REQUEST "Date: D\r\n" "HTTP/1.0" "<h1>400 Bad Request</h1>"
          "text/html" none =
        "HTTP/1.0 400 Bad Request\r\n" ++ String.join rest :=
  C10_parse_fail_http10 kaFS (fun _ => none) ["files"] "Date: D\r\n"
    ⟨false, [(false, .chunk "GET /a b HTTP/1.1\r\n\r\n")], true⟩ .badRequestLine
    rfl (by decide)

end Server
